import Mathlib

/-!
Shallow embedding of the `errtest` simulation engine (errdare repository,
file common.go, package errtest): outcome modes, operation frames, the
history/odometer enumerator (`incRun`), the acquire call (`Open`), the
release calls (`Close`/`CloseWithError`), the outcome ledger
(`setMustError`), and the per-execution harness (`runSim` / `Run`).

Go `error` interface values visible to the engine are either nil, an
engine-tagged `simError`, or some foreign error supplied by the scenario;
they are embedded as `Option GoErr`.  The `mustErr` field is always nil or
a `simError` in the source (stated in a source comment and visible from the
assignments), so it is embedded as `Option SimError`.  Go runtime panics
that the engine itself can raise (index out of range, failed type
assertion, nil-pointer dereference) are embedded as the `Crash` outcomes of
the corresponding operations.  A call to `Simulation.Fatalf` records a
report and stops the scenario (`t.SkipNow` runs `runtime.Goexit`), which is
embedded as the `.skip` outcome; the `SkipErrors` policy only changes the
severity of the report, not the control flow, and is not distinguished
here.
-/

namespace Errtest

/-- Outcome mode of one simulated operation (Go `mode`):
succeed, return a synthetic error, or panic. -/
inductive Mode where
  | noError
  | error
  | panic
deriving DecidableEq, Repr

/-- Go `simError`: the engine-tagged synthetic error. -/
structure SimError where
  mode : Mode
  key : String
deriving DecidableEq, Repr

/-- A non-nil Go `error` value as seen by the engine: either an
engine-tagged `simError` or a foreign error supplied by the scenario. -/
inductive GoErr where
  | sim (e : SimError)
  | foreign (name : String)
deriving DecidableEq, Repr

/-- Go runtime panics the engine code itself can raise. -/
inductive Crash where
  | indexOOB
  | typeAssert
  | nilDeref
deriving DecidableEq, Repr

/-- A value carried by a propagating Go panic. -/
inductive PanicVal where
  | sim (e : SimError)
  | foreign (name : String)
  | runtime (c : Crash)
deriving DecidableEq, Repr

/-- Go `frame`: per-operation record. -/
structure Frame where
  key : String
  modes : List Mode
  modeIndex : Nat
  noClose : Bool
  ignoreError : Bool
deriving DecidableEq, Repr

/-- Go `Config`. -/
structure Config where
  IgnorePanicOrder : Bool
  RequireCloseOnPanic : Bool
  SkipErrors : Bool
deriving DecidableEq, Repr

/-- Go preset `Pedantic = &Config{RequireCloseOnPanic: true}`. -/
def Pedantic : Config := ⟨false, true, false⟩

/-- Go preset `Relaxed = &Config{IgnorePanicOrder: true}`. -/
def Relaxed : Config := ⟨true, false, false⟩

/-- Go preset `SkipErrors = &Config{SkipErrors: true}`. -/
def SkipErrorsPreset : Config := ⟨false, false, true⟩

/-- A fatal (or, under `SkipErrors`, logged) report issued via
`Simulation.Fatalf`; one constructor per `Fatalf` call site, fields in the
order of the format arguments. -/
inductive Report where
  | alreadyExecuted (key : String)
  | nonDeterministic (key : String)
  | wrongOrder (closedKey expectedSlot : String)
  | alreadyClosed (key : String)
  | unmatchedClose (key : String)
  | wrongError (key : String) (got : Option GoErr) (want : Option SimError)
  | panickedUnexpectedly
  | wrongReturn (got : Option GoErr) (want : Option SimError)
deriving DecidableEq, Repr

/-- Go `Simulation` (the `testT`/`fatalf` wiring is embedded as the
accumulated `fatals` list). -/
structure Simulation where
  config : Option Config
  runIndex : Nat
  run : List Frame
  mustErr : Option SimError
  fatals : List Report
deriving DecidableEq, Repr

/-- Go `Simulation.ignorePanicOrder`: nil-tolerant accessor. -/
def Simulation.ignorePanicOrder (s : Simulation) : Bool :=
  match s.config with
  | none => false
  | some c => c.IgnorePanicOrder

/-- Go `Simulation.skipErrors`: nil-tolerant accessor. -/
def Simulation.skipErrors (s : Simulation) : Bool :=
  match s.config with
  | none => false
  | some c => c.SkipErrors

/-- Go `isPanic`.  On a non-nil error that is not a `simError` the
unchecked type assertion `err.(simError)` raises a runtime panic. -/
def isPanic : Option GoErr → Except Crash Bool
  | none => .ok false
  | some (.sim e) => .ok (e.mode = Mode.panic)
  | some (.foreign _) => .error .typeAssert

/-- `isPanic` specialised to `mustErr`, which is always nil or a
`simError`, so the type assertion always succeeds. -/
def isPanicMust : Option SimError → Bool
  | none => false
  | some e => e.mode = Mode.panic

/-- The functional options (Go `NoClose`, `NoError`, `NoPanic`,
`IgnoreError`). -/
inductive Opt where
  | noClose
  | noError
  | noPanic
  | ignoreError
deriving DecidableEq, Repr

/-- Go `options`: the flags the option functions can set (the `frame`
fields relevant before mode selection plus `noError`/`noPanic`). -/
structure OptState where
  noClose : Bool
  ignoreError : Bool
  noError : Bool
  noPanic : Bool
deriving DecidableEq, Repr

def applyOpt (o : OptState) : Opt → OptState
  | .noClose => { o with noClose := true }
  | .noError => { o with noError := true }
  | .noPanic => { o with noPanic := true }
  | .ignoreError => { o with ignoreError := true }

def applyOpts (opts : List Opt) : OptState :=
  opts.foldl applyOpt ⟨false, false, false, false⟩

/-- The modes list built by `Open`: `modeNoError` always, `modeError`
unless suppressed, `modePanic` unless suppressed. -/
def mkModes (o : OptState) : List Mode :=
  [Mode.noError] ++ (if o.noError then [] else [Mode.error])
    ++ (if o.noPanic then [] else [Mode.panic])

/-- Result of one engine call from the scenario's point of view:
returned value, scenario stopped by `Fatalf`/`SkipNow`, or a propagating
panic. -/
inductive OpOut where
  | ok (e : Option GoErr)
  | skip
  | panicked (v : PanicVal)
deriving DecidableEq, Repr

/-- Go `Simulation.Fatalf`: record the report; the scenario is stopped. -/
def fatalOut (s : Simulation) (r : Report) : Simulation × OpOut :=
  ({ s with fatals := s.fatals ++ [r] }, .skip)

def addFatal (s : Simulation) (r : Report) : Simulation :=
  { s with fatals := s.fatals ++ [r] }

/-- Go `Simulation.setMustError` (returns the built error as well). -/
def setMustError (s : Simulation) (m : Mode) (key : String) :
    Simulation × SimError :=
  let err : SimError := ⟨m, key⟩
  match s.mustErr with
  | none => ({ s with mustErr := some err }, err)
  | some e =>
    if m = Mode.panic ∧ e.mode ≠ Mode.panic then
      ({ s with mustErr := some err }, err)
    else (s, err)

/-- The mode-selection switch at the end of Go `Open` (reading
`s.run[s.runIndex]` and `f.modes[f.modeIndex]`); the deferred
`s.runIndex++` runs on every path through the switch, including the
panicking ones. -/
def openSel (s : Simulation) (key : String) : Simulation × OpOut :=
  match s.run.get? s.runIndex with
  | none => ({ s with runIndex := s.runIndex + 1 }, .panicked (.runtime .indexOOB))
  | some f =>
    match f.modes.get? f.modeIndex with
    | none => ({ s with runIndex := s.runIndex + 1 }, .panicked (.runtime .indexOOB))
    | some Mode.error =>
      let s1 := { s with run := s.run.set s.runIndex { f with noClose := true } }
      let s2 := if f.ignoreError then s1 else (setMustError s1 Mode.error key).1
      ({ s2 with runIndex := s2.runIndex + 1 }, .ok (some (.sim ⟨Mode.error, key⟩)))
    | some Mode.panic =>
      let s1 := { s with run := s.run.set s.runIndex { f with noClose := true } }
      let p := setMustError s1 Mode.panic key
      ({ p.1 with runIndex := p.1.runIndex + 1 }, .panicked (.sim p.2))
    | some Mode.noError => ({ s with runIndex := s.runIndex + 1 }, .ok none)

/-- Go `Simulation.Open`. -/
def Simulation.Open (s : Simulation) (key : String) (opts : List Opt) :
    Simulation × OpOut :=
  let o := applyOpts opts
  let newFrame : Frame := ⟨key, mkModes o, 0, o.noClose, o.ignoreError⟩
  if s.runIndex = s.run.length then
    if s.run.any (fun f => f.key == key) then
      fatalOut s (.alreadyExecuted key)
    else
      openSel { s with run := s.run ++ [newFrame] } key
  else
    match s.run.get? s.runIndex with
    | none => (s, .panicked (.runtime .indexOOB))
    | some old =>
      if old.key ≠ key then fatalOut s (.nonDeterministic key)
      else
        openSel { s with run := s.run.set s.runIndex { newFrame with modeIndex := old.modeIndex } } key

/-- The guard `!s.ignorePanicOrder() || !isPanic(err) || !isPanic(s.mustErr)`
in Go `CloseWithError` (`true` means: issue the wrong-error fatal),
with Go's left-to-right short-circuit evaluation, so the crashing
`isPanic(err)` is only reached when the relaxed policy is active. -/
def wrongErrGuard (s : Simulation) (err : Option GoErr) : Except Crash Bool :=
  if s.ignorePanicOrder = false then .ok true
  else
    match isPanic err with
    | .error c => .error c
    | .ok b =>
      if b = false then .ok true
      else .ok (!(isPanicMust s.mustErr))

/-- The body of Go `CloseWithError` once the scan has reached the first
not-yet-released frame `f`, at index `idx` of the history: mark it
released, check the key, check the error against the ledger (with the
relaxed-policy tolerance), then re-enter `Open` under the released key
plus the `.close` marker with the caller's options plus `NoClose`. -/
def closeFound (s : Simulation) (key : String) (err : Option GoErr)
    (opts : List Opt) (f : Frame) (idx : Nat) : Simulation × OpOut :=
  let s' := { s with run := s.run.set idx { f with noClose := true } }
  if f.key ≠ key then fatalOut s' (.wrongOrder f.key key)
  else if err ≠ s'.mustErr.map GoErr.sim then
    match wrongErrGuard s' err with
    | .error c => (s', .panicked (.runtime c))
    | .ok true => fatalOut s' (.wrongError key err s'.mustErr)
    | .ok false => s'.Open (key ++ ".close") (opts ++ [.noClose])
  else s'.Open (key ++ ".close") (opts ++ [.noClose])

/-- The backward scan of Go `CloseWithError`, expressed on the reversed
history; the head of the list argument is the frame at index
`rest.length` of `s.run`. -/
def closeScan (s : Simulation) (key : String) (err : Option GoErr)
    (opts : List Opt) : List Frame → Simulation × OpOut
  | [] => fatalOut s (.unmatchedClose key)
  | f :: rest =>
    if f.noClose = false then closeFound s key err opts f rest.length
    else
      if f.key = key then fatalOut s (.alreadyClosed key)
      else closeScan s key err opts rest

/-- Go `Simulation.CloseWithError`. -/
def Simulation.CloseWithError (s : Simulation) (key : String)
    (err : Option GoErr) (opts : List Opt) : Simulation × OpOut :=
  closeScan s key err opts s.run.reverse

/-- Go `Simulation.Close`: releases with the current ledger value. -/
def Simulation.Close (s : Simulation) (key : String) (opts : List Opt) :
    Simulation × OpOut :=
  s.CloseWithError key (s.mustErr.map GoErr.sim) opts

/-- A scenario function: a straight-line program over the engine's calls,
branching on each call's returned error value.  (Deferred calls are not
needed by the scenarios considered here.) -/
inductive Prog where
  | ret (e : Option GoErr)
  | panicW (v : PanicVal)
  | opn (key : String) (opts : List Opt) (k : Option GoErr → Prog)
  | cls (key : String) (opts : List Opt) (k : Option GoErr → Prog)
  | clsW (key : String) (err : Option GoErr) (opts : List Opt) (k : Option GoErr → Prog)

/-- How one invocation of the scenario ends, before the harness's deferred
recovery logic runs. -/
inductive ExecEnd where
  | ret (e : Option GoErr)
  | skip
  | panicked (v : PanicVal)
deriving DecidableEq, Repr

/-- Run the scenario body: engine calls thread the state; a `Fatalf`
(`.skip`) or a propagating panic ends the body. -/
def execProg (s : Simulation) : Prog → Simulation × ExecEnd
  | .ret e => (s, .ret e)
  | .panicW v => (s, .panicked v)
  | .opn key opts k =>
    match s.Open key opts with
    | (s', .ok e) => execProg s' (k e)
    | (s', .skip) => (s', .skip)
    | (s', .panicked v) => (s', .panicked v)
  | .cls key opts k =>
    match s.Close key opts with
    | (s', .ok e) => execProg s' (k e)
    | (s', .skip) => (s', .skip)
    | (s', .panicked v) => (s', .panicked v)
  | .clsW key err opts k =>
    match s.CloseWithError key err opts with
    | (s', .ok e) => execProg s' (k e)
    | (s', .skip) => (s', .skip)
    | (s', .panicked v) => (s', .panicked v)

/-- How `runSim`'s surrounding subtest ends: normally (enumeration
continues), or with a panic escaping the harness (the re-raised foreign
panic, or a runtime panic of the harness itself). -/
inductive Final where
  | ok
  | panic (v : PanicVal)
deriving DecidableEq, Repr

/-- The `err != s.mustErr` comparison at the end of `runSim`'s deferred
function: fatal unless the ledger holds a panic-class value. -/
def errCheck (s : Simulation) (err0 : Option GoErr) : Simulation × Final :=
  if err0 ≠ s.mustErr.map GoErr.sim then
    if s.mustErr.isNone || !(isPanicMust s.mustErr) then
      (addFatal s (.wrongReturn err0 s.mustErr), .ok)
    else (s, .ok)
  else (s, .ok)

/-- The deferred function of Go `runSim`: recovery of a panic, the
foreign-panic policy (note the direct `s.config.IgnorePanicOrder` read,
which dereferences a nil config), the `panicked unexpectedly` check
(whose `Fatalf` runs `Goexit`, abandoning the rest of the deferred
function), and the final returned-error comparison.  When the body ended
with `Fatalf`/`Goexit`, `err` was never assigned and `recover` returns
nil, so only the final comparison runs, with a nil `err`. -/
def finish (s : Simulation) (e : ExecEnd) : Simulation × Final :=
  match e with
  | .ret e0 => errCheck s e0
  | .skip => errCheck s none
  | .panicked v =>
    match v with
    | .sim _ =>
      if s.mustErr.isNone || !(isPanicMust s.mustErr) then
        (addFatal s .panickedUnexpectedly, .ok)
      else errCheck s none
    | v' =>
      match s.config with
      | none => (s, .panic (.runtime .nilDeref))
      | some c =>
        if c.IgnorePanicOrder = false then (s, .panic v')
        else
          let err0 : Option GoErr := some (.sim ⟨Mode.panic, "user"⟩)
          if s.mustErr.isNone || !(isPanicMust s.mustErr) then
            (addFatal s .panickedUnexpectedly, .ok)
          else errCheck s err0

/-- What one execution of the scenario produced: how the body ended, the
reports issued during it, and how the surrounding subtest ended. -/
structure ExecSummary where
  outcome : ExecEnd
  fatals : List Report
  final : Final
deriving DecidableEq, Repr

/-- Go `runSim` for the `idx`-th execution: reset `runIndex`, `mustErr`
(and the per-subtest report sink), run the body, then the deferred
checks. -/
def runSim (scen : Nat → Prog) (idx : Nat) (s : Simulation) :
    Simulation × ExecSummary :=
  let s0 : Simulation := { s with runIndex := 0, mustErr := none, fatals := [] }
  let r := execProg s0 (scen idx)
  let f := finish r.1 r.2
  (f.1, ⟨r.2, f.1.fatals, f.2⟩)

/-- Go `Simulation.incRun`, on the reversed history: increment the mode
index of the last frame, dropping exhausted frames; `none` means the
enumeration is finished. -/
def incRunRev : List Frame → Option (List Frame)
  | [] => none
  | f :: rest =>
    let f' := { f with modeIndex := f.modeIndex + 1 }
    if f'.modeIndex ≠ f'.modes.length then some (f' :: rest)
    else incRunRev rest

/-- Go `Simulation.incRun` acting on the history. -/
def incRun (run : List Frame) : Option (List Frame) :=
  (incRunRev run.reverse).map List.reverse

/-- How the whole `Run` call ends. -/
inductive RunEnd where
  | done
  | fuelOut
  | crashed (v : PanicVal)
deriving DecidableEq, Repr

/-- The enumeration loop of Go `Run`: `runSim` then `incRun` until
exhausted; a panic escaping a subtest crashes the whole run. -/
def runLoop : Nat → (Nat → Prog) → Nat → Simulation → List ExecSummary →
    List ExecSummary × RunEnd
  | 0, _, _, _, acc => (acc.reverse, .fuelOut)
  | fuel + 1, scen, idx, s, acc =>
    let r := runSim scen idx s
    let acc' := r.2 :: acc
    match r.2.final with
    | .panic v => (acc'.reverse, .crashed v)
    | .ok =>
      match incRun r.1.run with
      | none => (acc'.reverse, .done)
      | some run' => runLoop fuel scen (idx + 1) { r.1 with run := run' } acc'

/-- Go `Run`: execute the scenario once per enumerated combination (the
scenario receives the execution index, standing for any external state it
closes over; a deterministic scenario ignores it). -/
def Run (config : Option Config) (scen : Nat → Prog) (fuel : Nat) :
    List ExecSummary × RunEnd :=
  runLoop fuel scen 0 ⟨config, 0, [], none, []⟩ []

/-! ## Concrete scenarios used by the theorems -/

/-- A scenario that acquires `reader` with Fault allowed, Abort suppressed
and no release required, and returns whatever the acquire yields. -/
def c1scen : Nat → Prog := fun _ =>
  .opn "reader" [.noPanic, .noClose] (fun e => .ret e)

/-- A scenario with two all-success acquires `o1` then `o2` that releases
`o1` before `o2`. -/
def c5scen : Nat → Prog := fun _ =>
  .opn "o1" [.noError, .noPanic] (fun _ =>
    .opn "o2" [.noError, .noPanic] (fun _ =>
      .cls "o1" [.noError, .noPanic] (fun _ =>
        .cls "o2" [.noError, .noPanic] (fun _ => .ret none))))

/-- The key a `wrongOrder` report places in its `(expected %q)` slot. -/
def expectedKeyOf : Report → Option String
  | .wrongOrder _ expectedSlot => some expectedSlot
  | _ => none

/-- A state in which `k` was acquired (all three modes legal) and
succeeded, right before its release call. -/
def c6state : Simulation :=
  ⟨none, 1, [⟨"k", [Mode.noError, Mode.error, Mode.panic], 0, false, false⟩], none, []⟩

/-- A scenario that acquires `a` (success only, release never performed)
and then `b` (success or abort), returning `b`'s result. -/
def c7scen : Nat → Prog := fun _ =>
  .opn "a" [.noError, .noPanic] (fun _ => .opn "b" [.noError] (fun r => .ret r))

/-- A scenario (closing over external state, here the execution counter)
that acquires `k` with all modes legal on the first execution and with
Fault and Abort suppressed afterwards. -/
def c8scen : Nat → Prog := fun n =>
  if n = 0 then .opn "k" [] (fun _ => .ret none)
  else .opn "k" [.noError, .noPanic] (fun _ => .ret none)

/-- A sequence of ledger updates, one per Fault/Abort reported to the
ledger by the acquire/release calls of one execution. -/
def ledgerUpdates (s : Simulation) (us : List (Mode × String)) : Simulation :=
  us.foldl (fun t u => (setMustError t u.1 u.2).1) s

/-- Recognises the `did not return the correct error` report. -/
def isWrongReturn : Report → Bool
  | .wrongReturn _ _ => true
  | _ => false

/-- Recognises the `close of ... with wrong error` report. -/
def isWrongError : Report → Bool
  | .wrongError _ _ _ => true
  | _ => false

/-- A state in which `k` was acquired (success-only) while the ledger
holds a Fault for `x`. -/
def c3s0 : Simulation :=
  ⟨none, 1, [⟨"k", [Mode.noError], 0, false, false⟩], some ⟨Mode.error, "x"⟩, []⟩

/-- A relaxed-policy state in which `k` was acquired and succeeded. -/
def c10s0 : Simulation :=
  ⟨some Relaxed, 1, [⟨"k", [Mode.noError], 0, false, false⟩], none, []⟩

/-- The acquired frame of the C6 witness state. -/
def c6f0 : Frame := ⟨"k", [Mode.noError], 0, false, false⟩

/-- A state in which `k` was acquired (success-only) and succeeded. -/
def c6s1 : Simulation := ⟨none, 1, [c6f0], none, []⟩

/-- The invariant `0 ≤ modeIndex < len(modes)` for every frame of the
history (the lower bound is trivial for `Nat`). -/
def FramesOK (run : List Frame) : Prop :=
  ∀ f ∈ run, f.modeIndex < f.modes.length

/-- A state holding one frame for `k` with two legal modes, current mode
index 0. -/
def c8s1 : Simulation :=
  ⟨none, 0, [⟨"k", [Mode.noError, Mode.error], 0, false, false⟩], none, []⟩

/-! ## Claim theorems -/

/-- C1: a scenario that performs a single acquire of `reader` with Fault
allowed, Abort suppressed and no release required and returns whatever the
acquire yields is executed exactly twice by `Run` — one success execution
returning the empty error, and one Fault execution returning the tagged
Fault for `reader` — with no fatal report in either execution. -/
theorem c1_single_fault_acquire_two_runs :
    Run none c1scen 10 =
      ([⟨.ret none, [], .ok⟩,
        ⟨.ret (some (.sim ⟨Mode.error, "reader"⟩)), [], .ok⟩], .done) := by
  decide

/-- C5 counterexample: releasing `o1` before `o2` does fail on the first
execution with the out-of-order report, but that report's `(expected %q)`
slot cites `o1` (the key passed to the release call), not `o2`; no report
of the run cites `o2` as the expected key, refuting the claim as stated. -/
theorem c5_expected_key_cex :
    ((Run none c5scen 10).1.map ExecSummary.fatals =
      [[Report.wrongOrder "o2" "o1"]]) ∧
    ((Run none c5scen 10).1.all
      (fun x => !(x.fatals.any (fun r => expectedKeyOf r == some "o2")))) = true := by
  decide

/-- C5 amended: the very first execution fails with the fatal out-of-order
release report, which names `o2` as the frame closed in wrong order and
cites `o1` — the released key — in its `expected` slot, and the
enumeration stops after that single execution. -/
theorem c5_wrong_order_first_execution :
    Run none c5scen 10 =
      ([⟨.skip, [Report.wrongOrder "o2" "o1"], .ok⟩], .done) := by
  decide

/-- C6 counterexample: a release of `k` with no caller options re-enters
`Open` as `k.close`, but the synthetic frame's modes are
`[NoFault, Fault, Abort]` — Fault and Abort are not suppressed by
default (only the close-requirement is, via `NoClose`), refuting the
claim that the synthetic close operation's only legal mode is NoFault. -/
theorem c6_default_close_modes_cex :
    ((c6state.CloseWithError "k" none []).1.run.map
        (fun f => (f.key, f.modes, f.noClose)) =
      [("k", [Mode.noError, Mode.error, Mode.panic], true),
       ("k.close", [Mode.noError, Mode.error, Mode.panic], true)]) ∧
    ((c6state.CloseWithError "k" none []).1.run.all
      (fun f => f.key != "k.close" || f.modes == [Mode.noError])) = false := by
  decide

/-- C7: under the `Pedantic` preset (`RequireCloseOnPanic` set), an
execution in which an Abort is raised on `b` while `a` is acquired and
never released completes with zero fatal reports — the engine never
consults `RequireCloseOnPanic` and the release-required contract is not
enforced. -/
theorem c7_pedantic_no_release_required_report :
    (Run (some Pedantic) c7scen 10 =
      ([⟨.ret none, [], .ok⟩,
        ⟨.panicked (.sim ⟨Mode.panic, "b"⟩), [], .ok⟩], .done)) ∧
    Pedantic.RequireCloseOnPanic = true := by
  decide

theorem ledgerUpdates_stable (s : Simulation) (e : SimError)
    (us : List (Mode × String)) (hs : s.mustErr = some e)
    (hnp : ∀ u ∈ us, u.1 ≠ Mode.panic) :
    (ledgerUpdates s us).mustErr = some e := by
  induction us generalizing s with
  | nil => simpa [ledgerUpdates] using hs
  | cons u rest ih =>
    have hu : u.1 ≠ Mode.panic := hnp u (by simp)
    have hstep : ((setMustError s u.1 u.2).1).mustErr = some e := by
      simp [setMustError, hs, hu]
    have hrw : ledgerUpdates s (u :: rest) =
        ledgerUpdates (setMustError s u.1 u.2).1 rest := by
      simp [ledgerUpdates]
    rw [hrw]
    exact ih _ hstep (fun v hv => hnp v (by simp [hv]))

/-- C2: the ledger update (`setMustError`) obeys the four rules: an empty
ledger stores the newly observed tagged error; a later Abort overrides a
stored Fault; a Fault never overrides a stored Abort; and, absent a later
Abort, a stored value — in particular the first Fault/Abort observed in
the execution — remains the ledger value through every further update of
that execution. -/
theorem c2_ledger_update_rules (s : Simulation) (m : Mode) (k : String)
    (e : SimError) (us : List (Mode × String)) :
    (s.mustErr = none → ((setMustError s m k).1).mustErr = some ⟨m, k⟩) ∧
    (s.mustErr = some e → e.mode = Mode.error →
      ((setMustError s Mode.panic k).1).mustErr = some ⟨Mode.panic, k⟩) ∧
    (s.mustErr = some e → e.mode = Mode.panic →
      ((setMustError s Mode.error k).1).mustErr = some e) ∧
    (s.mustErr = some e → (∀ u ∈ us, u.1 ≠ Mode.panic) →
      (ledgerUpdates s us).mustErr = some e) ∧
    (s.mustErr = none → (∀ u ∈ us, u.1 ≠ Mode.panic) →
      (ledgerUpdates s ((m, k) :: us)).mustErr = some ⟨m, k⟩) := by
  refine ⟨?_, ?_, ?_, ?_, ?_⟩
  · intro h; simp [setMustError, h]
  · intro h hm; simp [setMustError, h, hm]
  · intro h hm; simp [setMustError, h, hm]
  · intro h hnp; exact ledgerUpdates_stable s e us h hnp
  · intro h hnp
    have h1 : ((setMustError s m k).1).mustErr = some ⟨m, k⟩ := by
      simp [setMustError, h]
    have hrw : ledgerUpdates s ((m, k) :: us) =
        ledgerUpdates (setMustError s m k).1 us := by
      simp [ledgerUpdates]
    rw [hrw]
    exact ledgerUpdates_stable _ _ us h1 hnp

/-- Witness for C2 at concrete ledgers and update sequences. -/
theorem c2_ledger_update_rules_witness :
    ((setMustError ⟨none, 0, [], none, []⟩ Mode.error "k").1).mustErr =
      some ⟨Mode.error, "k"⟩ ∧
    ((setMustError ⟨none, 0, [], some ⟨Mode.error, "x"⟩, []⟩ Mode.panic "k").1).mustErr =
      some ⟨Mode.panic, "k"⟩ ∧
    ((setMustError ⟨none, 0, [], some ⟨Mode.panic, "x"⟩, []⟩ Mode.error "k").1).mustErr =
      some ⟨Mode.panic, "x"⟩ ∧
    (ledgerUpdates ⟨none, 0, [], some ⟨Mode.panic, "x"⟩, []⟩
      [(Mode.error, "y")]).mustErr = some ⟨Mode.panic, "x"⟩ ∧
    (ledgerUpdates ⟨none, 0, [], none, []⟩
      [(Mode.error, "k"), (Mode.error, "y")]).mustErr = some ⟨Mode.error, "k"⟩ := by
  refine ⟨?_, ?_, ?_, ?_, ?_⟩
  · exact (c2_ledger_update_rules ⟨none, 0, [], none, []⟩ Mode.error "k"
      ⟨Mode.error, "x"⟩ []).1 rfl
  · exact (c2_ledger_update_rules ⟨none, 0, [], some ⟨Mode.error, "x"⟩, []⟩
      Mode.error "k" ⟨Mode.error, "x"⟩ []).2.1 rfl rfl
  · exact (c2_ledger_update_rules ⟨none, 0, [], some ⟨Mode.panic, "x"⟩, []⟩
      Mode.error "k" ⟨Mode.panic, "x"⟩ []).2.2.1 rfl rfl
  · exact (c2_ledger_update_rules ⟨none, 0, [], some ⟨Mode.panic, "x"⟩, []⟩
      Mode.error "k" ⟨Mode.panic, "x"⟩ [(Mode.error, "y")]).2.2.2.1 rfl (by decide)
  · exact (c2_ledger_update_rules ⟨none, 0, [], none, []⟩
      Mode.error "k" ⟨Mode.panic, "x"⟩ [(Mode.error, "y")]).2.2.2.2 rfl (by decide)

/-- C4: after an execution in which the scenario returned `e0`, the
harness issues the fatal `did not return the correct error` report
exactly when `e0` differs from the ledger's final value and the ledger
does not hold an Abort-class outcome; an Abort-class ledger tolerates any
return value. -/
theorem c4_wrong_return_iff (s : Simulation) (e0 : Option GoErr)
    (hfat : s.fatals = []) :
    (((finish s (.ret e0)).1.fatals.any isWrongReturn) = true ↔
      (e0 ≠ s.mustErr.map GoErr.sim ∧ isPanicMust s.mustErr = false)) ∧
    (finish s (.ret e0)).2 = .ok := by
  unfold finish errCheck
  by_cases he : e0 = s.mustErr.map GoErr.sim
  · simp [he, hfat]
  · by_cases hp : isPanicMust s.mustErr = true
    · have hn : s.mustErr.isNone = false := by
        cases hm : s.mustErr with
        | none => rw [hm] at hp; simp [isPanicMust] at hp
        | some e => simp
      simp [he, hp, hn, hfat]
    · simp only [Bool.not_eq_true] at hp
      simp [he, hp, hfat, addFatal, isWrongReturn]

/-- Witness for C4: a Fault-class ledger and a nil return value. -/
theorem c4_wrong_return_iff_witness :
    ((finish ⟨none, 0, [], some ⟨Mode.error, "r"⟩, []⟩ (.ret none)).1.fatals.any
      isWrongReturn) = true :=
  (c4_wrong_return_iff ⟨none, 0, [], some ⟨Mode.error, "r"⟩, []⟩ none rfl).1.mpr
    ⟨by decide, by decide⟩

/-- C9: when `Run` was given a nil config and the scenario panics with a
foreign (non-`simError`) value, the recovery path of `runSim`
dereferences the nil config (`s.config.IgnorePanicOrder`) and crashes
with a nil-pointer panic instead of re-raising the foreign panic
untouched. -/
theorem c9_nil_config_foreign_panic_nil_deref (s : Simulation) (name : String)
    (h : s.config = none) :
    finish s (.panicked (.foreign name)) = (s, .panic (.runtime .nilDeref)) ∧
    PanicVal.runtime .nilDeref ≠ PanicVal.foreign name := by
  constructor
  · simp [finish, h]
  · simp

/-- Witness for C9 at a concrete nil-config state. -/
theorem c9_nil_config_foreign_panic_nil_deref_witness :
    finish ⟨none, 0, [], none, []⟩ (.panicked (.foreign "boom")) =
      (⟨none, 0, [], none, []⟩, .panic (.runtime .nilDeref)) :=
  (c9_nil_config_foreign_panic_nil_deref ⟨none, 0, [], none, []⟩ "boom" rfl).1

theorem closeScan_skip (s : Simulation) (key : String) (err : Option GoErr)
    (opts : List Opt) (top rest : List Frame)
    (htop : ∀ g ∈ top, g.noClose = true ∧ g.key ≠ key) :
    closeScan s key err opts (top ++ rest) = closeScan s key err opts rest := by
  induction top with
  | nil => simp
  | cons g t ih =>
    have hg := htop g (by simp)
    have ht : ∀ g' ∈ t, g'.noClose = true ∧ g'.key ≠ key :=
      fun g' hmem => htop g' (by simp [hmem])
    rw [List.cons_append]
    rw [show closeScan s key err opts (g :: (t ++ rest)) =
        closeScan s key err opts (t ++ rest) by simp [closeScan, hg.1, hg.2]]
    exact ih ht

theorem closeScan_cons_found (s : Simulation) (key : String) (err : Option GoErr)
    (opts : List Opt) (f : Frame) (rest : List Frame)
    (hf : f.noClose = false) :
    closeScan s key err opts (f :: rest) =
      closeFound s key err opts f rest.length := by
  simp [closeScan, hf]

theorem closeWithError_found (s : Simulation) (key : String) (err : Option GoErr)
    (opts : List Opt) (top rest : List Frame) (f : Frame)
    (hrun : s.run.reverse = top ++ f :: rest)
    (htop : ∀ g ∈ top, g.noClose = true ∧ g.key ≠ key)
    (hf : f.noClose = false) :
    s.CloseWithError key err opts = closeFound s key err opts f rest.length := by
  unfold Simulation.CloseWithError
  rw [hrun, closeScan_skip s key err opts top (f :: rest) htop,
    closeScan_cons_found s key err opts f rest hf]

theorem map_sim_inj (a b : Option SimError) :
    a.map GoErr.sim = b.map GoErr.sim ↔ a = b := by
  cases a <;> cases b <;> simp

theorem isPanic_map_sim (a : Option SimError) :
    isPanic (a.map GoErr.sim) = .ok (isPanicMust a) := by
  cases a <;> simp [isPanic, isPanicMust]

theorem ignorePanicOrder_mk_config (s : Simulation) (i : Nat) (r : List Frame)
    (m : Option SimError) (fs : List Report) :
    (Simulation.mk s.config i r m fs).ignorePanicOrder = s.ignorePanicOrder := rfl

theorem wrongErrGuard_eval (s : Simulation) (errS : Option SimError) :
    wrongErrGuard s (errS.map GoErr.sim) =
      .ok (!(s.ignorePanicOrder && isPanicMust errS && isPanicMust s.mustErr)) := by
  unfold wrongErrGuard
  cases hip : s.ignorePanicOrder
  · simp
  · rw [isPanic_map_sim]
    cases hpe : isPanicMust errS
    · simp
    · cases hpm : isPanicMust s.mustErr <;> simp

theorem setMustError_fatals (s : Simulation) (m : Mode) (k : String) :
    ((setMustError s m k).1).fatals = s.fatals := by
  cases hm : s.mustErr <;> simp [setMustError, hm]
  split <;> rfl

theorem openSel_fatals (s : Simulation) (key : String) :
    (openSel s key).1.fatals = s.fatals := by
  unfold openSel
  cases hg : s.run.get? s.runIndex with
  | none => rfl
  | some f =>
    dsimp
    cases hm : f.modes.get? f.modeIndex with
    | none => rfl
    | some md =>
      cases md
      · rfl
      · dsimp
        split
        · rfl
        · rw [setMustError_fatals]
      · dsimp
        rw [setMustError_fatals]

theorem open_any_wrongError (s : Simulation) (key : String) (opts : List Opt) :
    ((s.Open key opts).1.fatals.any isWrongError) =
      (s.fatals.any isWrongError) := by
  unfold Simulation.Open
  dsimp
  split
  · split
    · simp [fatalOut, isWrongError]
    · rw [openSel_fatals]
  · cases hg : s.run.get? s.runIndex with
    | none => rfl
    | some old =>
      dsimp
      split
      · simp [fatalOut, isWrongError]
      · rw [openSel_fatals]

/-- C3: a release call that locates the matching not-yet-released frame
(passing the order and double-release checks) and supplies a nil or
engine-tagged error issues the fatal `close ... with wrong error` report
exactly when the supplied error differs from the ledger and it is not the
case that the relaxed-order policy is active with both the supplied error
and the ledger value being Abort-class; in particular a Fault-class
mismatch is never tolerated under any policy. -/
theorem c3_close_wrong_error_iff (s : Simulation) (key : String)
    (errS : Option SimError) (opts : List Opt)
    (top rest : List Frame) (f : Frame)
    (hrun : s.run.reverse = top ++ f :: rest)
    (htop : ∀ g ∈ top, g.noClose = true ∧ g.key ≠ key)
    (hf : f.noClose = false) (hkey : f.key = key)
    (hfat : s.fatals = []) :
    ((s.CloseWithError key (errS.map GoErr.sim) opts).1.fatals.any
        isWrongError) = true ↔
      (errS ≠ s.mustErr ∧
        ¬(s.ignorePanicOrder = true ∧ isPanicMust errS = true ∧
          isPanicMust s.mustErr = true)) := by
  rw [closeWithError_found s key (errS.map GoErr.sim) opts top rest f hrun htop hf]
  simp only [closeFound]
  rw [if_neg (show ¬(f.key ≠ key) by simp [hkey])]
  by_cases he : errS = s.mustErr
  · rw [if_neg (show ¬(errS.map GoErr.sim ≠ s.mustErr.map GoErr.sim) by
      simp [map_sim_inj, he])]
    rw [open_any_wrongError]
    dsimp only
    rw [hfat]
    simp [he]
  · rw [if_pos (show errS.map GoErr.sim ≠ s.mustErr.map GoErr.sim by
      simpa [map_sim_inj] using he)]
    rw [wrongErrGuard_eval]
    rw [ignorePanicOrder_mk_config]
    dsimp only
    cases hb : s.ignorePanicOrder && isPanicMust errS && isPanicMust s.mustErr
    · simp only [Bool.not_false]
      dsimp only [fatalOut]
      rw [hfat]
      simp only [List.nil_append, List.any_cons, List.any_nil, isWrongError,
        Bool.true_or, true_iff]
      refine ⟨he, fun hc => ?_⟩
      rcases hc with ⟨h1, h2, h3⟩
      rw [h1, h2, h3] at hb
      exact absurd hb (by simp)
    · simp only [Bool.not_true]
      rw [open_any_wrongError]
      dsimp only
      rw [hfat]
      simp only [List.any_nil]
      constructor
      · intro h; exact absurd h (by simp)
      · rintro ⟨-, hno⟩
        have hb' := hb
        simp only [Bool.and_eq_true] at hb'
        exact absurd ⟨hb'.1.1, hb'.1.2, hb'.2⟩ hno

/-- Witness for C3: releasing `k` with a nil error against a Fault-class
ledger issues the wrong-error report. -/
theorem c3_close_wrong_error_iff_witness :
    ((c3s0.CloseWithError "k" ((none : Option SimError).map GoErr.sim) []).1.fatals.any
        isWrongError) = true :=
  (c3_close_wrong_error_iff c3s0 "k" none [] [] []
      ⟨"k", [Mode.noError], 0, false, false⟩ rfl (by simp) rfl rfl rfl).mpr
    ⟨by decide, by decide⟩

/-- C10: under the relaxed-order policy, a release of the correct
not-yet-released frame that supplies a non-nil foreign (non-`simError`)
error value — which necessarily differs from the ledger — makes the
engine crash on the unchecked type assertion inside `isPanic` instead of
issuing the fatal `close ... with wrong error` report. -/
theorem c10_foreign_error_close_type_assert (s : Simulation)
    (key name : String) (opts : List Opt)
    (top rest : List Frame) (f : Frame)
    (hrun : s.run.reverse = top ++ f :: rest)
    (htop : ∀ g ∈ top, g.noClose = true ∧ g.key ≠ key)
    (hf : f.noClose = false) (hkey : f.key = key)
    (hrelax : s.ignorePanicOrder = true) :
    (s.CloseWithError key (some (.foreign name)) opts).2 =
      .panicked (.runtime .typeAssert) ∧
    (s.CloseWithError key (some (.foreign name)) opts).1.fatals = s.fatals := by
  rw [closeWithError_found s key (some (.foreign name)) opts top rest f hrun htop hf]
  cases hm : s.mustErr <;>
    simp [closeFound, wrongErrGuard, ignorePanicOrder_mk_config, hrelax, hkey,
      isPanic, hm]

/-- Witness for C10 at a concrete relaxed-policy state and foreign error. -/
theorem c10_foreign_error_close_type_assert_witness :
    (c10s0.CloseWithError "k" (some (.foreign "e")) []).2 =
      .panicked (.runtime .typeAssert) :=
  (c10_foreign_error_close_type_assert c10s0 "k" "e" [] [] []
      ⟨"k", [Mode.noError], 0, false, false⟩ rfl (by simp) rfl rfl rfl).1

theorem open_new_entry (s : Simulation) (key : String) (opts : List Opt)
    (hidx : s.runIndex = s.run.length)
    (hdup : ∀ g ∈ s.run, ¬(g.key = key)) :
    (s.Open key opts).1.run =
      s.run ++ [⟨key, mkModes (applyOpts opts), 0, (applyOpts opts).noClose,
        (applyOpts opts).ignoreError⟩] ∧
    (s.Open key opts).2 = .ok none := by
  unfold Simulation.Open
  rw [if_pos hidx]
  rw [if_neg (show ¬(s.run.any (fun g => g.key == key) = true) by
    simp only [List.any_eq_true, not_exists, not_and]
    intro g hg
    simp [hdup g hg])]
  unfold openSel
  rw [show (Simulation.mk s.config s.runIndex
      (s.run ++ [⟨key, mkModes (applyOpts opts), 0, (applyOpts opts).noClose,
        (applyOpts opts).ignoreError⟩]) s.mustErr s.fatals).run.get?
      s.runIndex = some ⟨key, mkModes (applyOpts opts), 0,
        (applyOpts opts).noClose, (applyOpts opts).ignoreError⟩ by
    dsimp only
    rw [hidx]
    exact List.get?_concat_length s.run _]
  simp [mkModes]

/-- C6 amended: a release call that passes the order, double-release and
error-equality checks re-enters the acquire machinery as the synthetic
operation `key ++ ".close"` under the caller's options plus `NoClose`;
when the caller states no options, the synthetic frame is created with
modes `[NoFault, Fault, Abort]` and `noClose` set — i.e. by default only
the close-requirement is suppressed, while Fault and Abort remain legal
modes of the synthetic close operation. -/
theorem c6_close_reenter_open (s : Simulation) (key : String)
    (top rest : List Frame) (f : Frame)
    (hrun : s.run.reverse = top ++ f :: rest)
    (htop : ∀ g ∈ top, g.noClose = true ∧ g.key ≠ key)
    (hf : f.noClose = false) (hkey : f.key = key)
    (hidx : s.runIndex = s.run.length)
    (hdup : ∀ g ∈ s.run, ¬(g.key = key ++ ".close")) :
    (s.CloseWithError key (s.mustErr.map GoErr.sim) []).1.run =
      (s.run.set rest.length { f with noClose := true }) ++
        [⟨key ++ ".close", [Mode.noError, Mode.error, Mode.panic], 0, true, false⟩] ∧
    (s.CloseWithError key (s.mustErr.map GoErr.sim) []).2 = .ok none := by
  have hfmem : f ∈ s.run := by
    rw [← List.mem_reverse, hrun]
    simp
  rw [closeWithError_found s key (s.mustErr.map GoErr.sim) [] top rest f hrun htop hf]
  simp only [closeFound]
  rw [if_neg (show ¬(f.key ≠ key) by simp [hkey])]
  rw [if_neg (show ¬(s.mustErr.map GoErr.sim ≠
    (Simulation.mk s.config s.runIndex
      (s.run.set rest.length { f with noClose := true }) s.mustErr
      s.fatals).mustErr.map GoErr.sim) by simp)]
  refine open_new_entry _ _ _ ?_ ?_
  · dsimp only
    rw [List.length_set]
    exact hidx
  · intro g hg
    dsimp only at hg
    rcases List.mem_or_eq_of_mem_set hg with h | h
    · exact hdup g h
    · rw [h]
      exact hdup f hfmem

/-- Witness for C6 amended at a concrete state. -/
theorem c6_close_reenter_open_witness :
    (c6s1.CloseWithError "k" (c6s1.mustErr.map GoErr.sim) []).1.run =
      (c6s1.run.set 0 { c6f0 with noClose := true }) ++
        [⟨"k" ++ ".close", [Mode.noError, Mode.error, Mode.panic], 0, true, false⟩] ∧
    (c6s1.CloseWithError "k" (c6s1.mustErr.map GoErr.sim) []).2 = .ok none :=
  c6_close_reenter_open c6s1 "k" [] [] c6f0 rfl (by simp) rfl rfl rfl
    (by intro g hg; simp [c6s1, c6f0] at hg; subst hg; decide)

/-- C8 counterexample: a replayed acquire of `k` that passes suppression
options yielding a one-element modes list while the carried-over
`modeIndex` is 1 makes the `modes[modeIndex]` lookup index out of bounds
on the second execution, refuting the claim that the lookup never indexes
out of bounds. -/
theorem c8_mode_lookup_oob_cex :
    ((Run none c8scen 10).1.map ExecSummary.outcome =
      [.ret none, .panicked (.runtime .indexOOB)]) ∧
    ((Run none c8scen 10).1.all
      (fun x => x.outcome != ExecEnd.panicked (.runtime .indexOOB))) = false := by
  decide

theorem mkModes_length_pos (o : OptState) : 0 < (mkModes o).length := by
  simp [mkModes]

theorem setMustError_run (s : Simulation) (m : Mode) (k : String) :
    ((setMustError s m k).1).run = s.run := by
  cases hm : s.mustErr <;> simp [setMustError, hm]
  split <;> rfl

theorem FramesOK_set (run : List Frame) (i : Nat) (f : Frame)
    (hok : FramesOK run) (hf : f.modeIndex < f.modes.length) :
    FramesOK (run.set i f) := by
  intro g hg
  rcases List.mem_or_eq_of_mem_set hg with h | h
  · exact hok g h
  · rw [h]; exact hf

theorem FramesOK_append_one (run : List Frame) (f : Frame)
    (hok : FramesOK run) (hf : f.modeIndex < f.modes.length) :
    FramesOK (run ++ [f]) := by
  intro g hg
  rcases List.mem_append.mp hg with h | h
  · exact hok g h
  · rw [List.mem_singleton.mp h]; exact hf

theorem openSel_invariant (s : Simulation) (key : String) (f : Frame)
    (hg : s.run.get? s.runIndex = some f)
    (hm : f.modeIndex < f.modes.length)
    (hok : FramesOK s.run) :
    FramesOK (openSel s key).1.run ∧
      (openSel s key).2 ≠ .panicked (.runtime .indexOOB) := by
  obtain ⟨md, hmd⟩ : ∃ md, f.modes.get? f.modeIndex = some md :=
    ⟨_, List.get?_eq_get hm⟩
  have hset : FramesOK (s.run.set s.runIndex { f with noClose := true }) :=
    FramesOK_set s.run s.runIndex _ hok hm
  unfold openSel
  simp only [hg, hmd]
  cases md
  · exact ⟨hok, by simp⟩
  · refine ⟨?_, by simp⟩
    dsimp only
    split
    · exact hset
    · rw [setMustError_run]
      exact hset
  · refine ⟨?_, by simp⟩
    dsimp only
    rw [setMustError_run]
    exact hset

theorem FramesOK_incRunRev (l : List Frame) :
    ∀ l' : List Frame, FramesOK l → incRunRev l = some l' → FramesOK l' := by
  induction l with
  | nil =>
    intro l' _ h
    simp [incRunRev] at h
  | cons f rest ih =>
    intro l' hok h
    simp only [incRunRev] at h
    by_cases hc : ¬(f.modeIndex + 1 = f.modes.length)
    · rw [if_pos hc] at h
      injection h with h
      subst h
      intro g hg
      rcases List.mem_cons.mp hg with h1 | h1
      · rw [h1]
        have hf := hok f (by simp)
        dsimp only
        omega
      · exact hok g (by simp [h1])
    · rw [if_neg hc] at h
      exact ih l' (fun g hg => hok g (by simp [hg])) h

theorem FramesOK_incRun (l l' : List Frame) (hok : FramesOK l)
    (h : incRun l = some l') : FramesOK l' := by
  unfold incRun at h
  cases hr : incRunRev l.reverse with
  | none => rw [hr] at h; cases h
  | some m =>
    rw [hr] at h
    simp only [Option.map_some'] at h
    injection h with h
    subst h
    have hrev : FramesOK l.reverse := fun g hg => hok g (List.mem_reverse.mp hg)
    have hm := FramesOK_incRunRev l.reverse m hrev hr
    intro g hg
    exact hm g (List.mem_reverse.mp hg)

/-- C8 amended: the history invariant `modeIndex < len(modes)` is
preserved by `incRun` and by every acquire whose options, on a replayed
call, yield a modes list longer than the carried-over `modeIndex` (in
particular by every call that passes the same options in every
execution); under that proviso the `modes[modeIndex]` lookup of `Open`
never indexes out of bounds.  (A replayed call whose options yield a
shorter modes list violates the invariant and crashes, see the
counterexample.) -/
theorem c8_modeIndex_invariant (s : Simulation) (key : String) (opts : List Opt)
    (run' : List Frame)
    (hok : FramesOK s.run)
    (hidx : s.runIndex ≤ s.run.length)
    (hreplay : ∀ old, s.run.get? s.runIndex = some old →
      old.modeIndex < (mkModes (applyOpts opts)).length) :
    (FramesOK (s.Open key opts).1.run ∧
      (s.Open key opts).2 ≠ .panicked (.runtime .indexOOB)) ∧
    (incRun s.run = some run' → FramesOK run') := by
  constructor
  · unfold Simulation.Open
    by_cases hix : s.runIndex = s.run.length
    · rw [if_pos hix]
      by_cases hany : s.run.any (fun g => g.key == key) = true
      · rw [if_pos hany]
        exact ⟨hok, by simp [fatalOut]⟩
      · rw [if_neg hany]
        have hfr : ((s.run ++ [(⟨key, mkModes (applyOpts opts), 0,
            (applyOpts opts).noClose, (applyOpts opts).ignoreError⟩ : Frame)]).get?
            s.runIndex) = some ⟨key, mkModes (applyOpts opts), 0,
            (applyOpts opts).noClose, (applyOpts opts).ignoreError⟩ := by
          rw [hix]
          exact List.get?_concat_length s.run _
        refine openSel_invariant _ key _ hfr ?_ ?_
        · exact mkModes_length_pos _
        · exact FramesOK_append_one s.run _ hok (mkModes_length_pos _)
    · rw [if_neg hix]
      have hlt : s.runIndex < s.run.length := lt_of_le_of_ne hidx hix
      cases hg : s.run.get? s.runIndex with
      | none =>
        rw [List.get?_eq_get hlt] at hg
        cases hg
      | some old =>
        dsimp only
        by_cases hk : old.key ≠ key
        · rw [if_pos hk]
          exact ⟨hok, by simp [fatalOut]⟩
        · rw [if_neg hk]
          have hfr : ((s.run.set s.runIndex
              (⟨key, mkModes (applyOpts opts), old.modeIndex,
                (applyOpts opts).noClose, (applyOpts opts).ignoreError⟩ : Frame)).get?
              s.runIndex) = some ⟨key, mkModes (applyOpts opts), old.modeIndex,
                (applyOpts opts).noClose, (applyOpts opts).ignoreError⟩ :=
            List.get?_set_eq_of_lt _ hlt
          refine openSel_invariant _ key _ hfr ?_ ?_
          · exact hreplay old hg
          · exact FramesOK_set s.run s.runIndex _ hok (hreplay old hg)
  · intro hinc
    exact FramesOK_incRun s.run run' hok hinc

/-- Witness for C8 amended at a concrete state: a replay with unchanged
options keeps the invariant and avoids the out-of-bounds lookup, and so
does the odometer step. -/
theorem c8_modeIndex_invariant_witness :
    (FramesOK (c8s1.Open "k" []).1.run ∧
      (c8s1.Open "k" []).2 ≠ .panicked (.runtime .indexOOB)) ∧
    FramesOK [⟨"k", [Mode.noError, Mode.error], 1, false, false⟩] := by
  have h := c8_modeIndex_invariant c8s1 "k" []
    [⟨"k", [Mode.noError, Mode.error], 1, false, false⟩]
    (by intro g hg; simp [c8s1] at hg; subst hg; decide)
    (by decide)
    (by intro old hold; simp [c8s1] at hold; subst hold; decide)
  exact ⟨h.1, h.2 (by decide)⟩

end Errtest
